import Mathlib

/-!
Shallow embedding of the 5-stage pipelined RV32I simulator in
`src/forwarding.cpp`, together with theorems settling the specification
claims about it.

Modelling conventions:
* 32-bit machine words (`uint32_t`, and `int32_t` values seen as their bit
  patterns) are `Nat` values kept below `2 ^ 32`; arithmetic wraps with an
  explicit `% 2 ^ 32`, and signed views go through `toSigned`.
* C++ `int` register indices (which use `-1` as the "absent" sentinel and are
  left untouched by decode cases that do not assign them) are `Int`.
* The register file is a 32-entry `List Nat`, data memory a byte `List Nat`,
  instruction memory a word `List Nat`.
* In-place mutation of the shared `Processor` object becomes explicit state
  passing; each C++ stage function becomes a pure function on `Processor`.
* `decodeInstruction(raw, inst)` mutates `inst` in place and leaves the fields
  its case does not assign at their previous values; the embedding therefore
  takes the previous `Instruction` and updates it, preserving stale fields
  exactly as the C++ does.
* The trace recorder is observational except for one point: the fetch stage
  drops (invalidates IF/ID for) a PC that has no entry in the trace-address
  table, and a stalled decode may register the next PC in that table.  The
  embedding carries that address table as the `tracked` field.
-/

namespace Forwarding

inductive InstructionFormat where
  | R_TYPE | I_TYPE | S_TYPE | B_TYPE | U_TYPE | J_TYPE
deriving DecidableEq

inductive Opcode where
  | ADD | SUB | SLL | SLT | SLTU | XOR | SRL | SRA | OR | AND
  | ADDI | SLTI | SLTIU | XORI | ORI | ANDI | SLLI | SRLI | SRAI
  | LB | LH | LW | LBU | LHU
  | SB | SH | SW
  | BEQ | BNE | BLT | BGE | BLTU | BGEU
  | LUI | AUIPC
  | JAL | JALR
  | INVALID
deriving DecidableEq

/-- Mirror of the C++ range test `inst.opcode >= LB && inst.opcode <= LHU`
(the enumerators LB, LH, LW, LBU, LHU are contiguous in the C++ enum). -/
def Opcode.isLoad : Opcode → Bool
  | .LB | .LH | .LW | .LBU | .LHU => true
  | _ => false

structure Instruction where
  raw : Nat := 0
  opcode : Opcode := .INVALID
  format : InstructionFormat := .R_TYPE
  rs1 : Int := -1
  rs2 : Int := -1
  rd : Int := -1
  immediate : Nat := 0
deriving DecidableEq

structure ControlSignals where
  regWrite : Bool := false
  memRead : Bool := false
  memWrite : Bool := false
  memToReg : Bool := false
  aluSrc : Bool := false
  branch : Bool := false
  jump : Bool := false
  aluOp : Nat := 0
deriving DecidableEq

structure ALUResult where
  result : Nat := 0
  zero : Bool := false
  negative : Bool := false
  overflow : Bool := false
deriving DecidableEq

structure IF_ID_Register where
  pc : Nat := 0
  instruction : Instruction := {}
  valid : Bool := false
deriving DecidableEq

structure ID_EX_Register where
  pc : Nat := 0
  instruction : Instruction := {}
  readData1 : Nat := 0
  readData2 : Nat := 0
  immediate : Nat := 0
  control : ControlSignals := {}
  valid : Bool := false
deriving DecidableEq

structure EX_MEM_Register where
  pc : Nat := 0
  branchTarget : Nat := 0
  instruction : Instruction := {}
  aluResult : ALUResult := {}
  readData2 : Nat := 0
  control : ControlSignals := {}
  branchTaken : Bool := false
  valid : Bool := false
deriving DecidableEq

structure MEM_WB_Register where
  pc : Nat := 0
  instruction : Instruction := {}
  aluResult : Nat := 0
  readData : Nat := 0
  control : ControlSignals := {}
  valid : Bool := false
deriving DecidableEq

/-- Signed view of a 32-bit pattern (the value of the `int32_t` holding it). -/
def toSigned (n : Nat) : Int := if n < 2 ^ 31 then (n : Int) else (n : Int) - 2 ^ 32

/-- Wrapping 32-bit addition (uint32/int32 `+`, seen on bit patterns). -/
def add32 (a b : Nat) : Nat := (a + b) % 2 ^ 32

/-- Wrapping 32-bit subtraction. -/
def sub32 (a b : Nat) : Nat := (a % 2 ^ 32 + (2 ^ 32 - b % 2 ^ 32)) % 2 ^ 32

/-- Arithmetic (sign-propagating) right shift on a 32-bit pattern; arithmetic
shift of a two's-complement value is floor division by the power of two. -/
def sra32 (a sh : Nat) : Nat := (((toSigned a).fdiv (2 ^ sh)) % (2 ^ 32 : Int)).toNat

/-- InstructionMemory::readInstruction. -/
def readInstruction (memory : List Nat) (address : Nat) : Nat :=
  if address / 4 < memory.length then memory.getD (address / 4) 0 else 0

/-- RegisterFile::read (out-of-range indices, including the -1 sentinel, read 0). -/
def regFileRead (registers : List Nat) (reg : Int) : Nat :=
  if 0 ≤ reg ∧ reg < 32 then registers.getD reg.toNat 0 else 0

/-- RegisterFile::write (writes to register 0 and out-of-range indices dropped). -/
def regFileWrite (registers : List Nat) (reg : Int) (value : Nat) : List Nat :=
  if 0 < reg ∧ reg < 32 then registers.set reg.toNat value else registers

/-- DataMemory::read: little-endian assembly of `size` bytes, 0 when the
(uint32-wrapped) end of the access is out of bounds. -/
def dataMemRead (memory : List Nat) (address : Nat) (size : Nat) : Nat :=
  if (address + size - 1) % 2 ^ 32 < memory.length then
    (List.range size).foldl (fun value i => value ||| ((memory.getD (address + i) 0) <<< (i * 8))) 0
  else 0

/-- DataMemory::write: store the low `size` bytes little-endian, dropped when
the (uint32-wrapped) end of the access is out of bounds. -/
def dataMemWrite (memory : List Nat) (address : Nat) (value : Nat) (size : Nat) : List Nat :=
  if (address + size - 1) % 2 ^ 32 < memory.length then
    (List.range size).foldl (fun mem i => mem.set (address + i) ((value >>> (i * 8)) &&& 0xFF)) memory
  else memory

/-- 12-bit sign extension used by the I/S-format immediates
(`if (imm & 0x800) imm |= 0xFFFFF000`). -/
def signExt12 (v : Nat) : Nat := if v &&& 0x800 ≠ 0 then v ||| 0xFFFFF000 else v

/-- Processor::decodeInstruction.  `prev` is the in-place mutated argument:
fields a case does not assign keep their previous value, exactly as in the
C++ (including the `default:` case which assigns only `opcode = INVALID`). -/
def decodeInstruction (rawInst : Nat) (prev : Instruction) : Instruction :=
  let inst := { prev with raw := rawInst }
  let opcodeField := rawInst &&& 0x7F
  if opcodeField = 0x33 then
    let funct3 := (rawInst >>> 12) &&& 0x7
    let funct7 := (rawInst >>> 25) &&& 0x7F
    let opc : Opcode :=
      if funct7 = 0x00 then
        if funct3 = 0x0 then .ADD else if funct3 = 0x1 then .SLL
        else if funct3 = 0x2 then .SLT else if funct3 = 0x3 then .SLTU
        else if funct3 = 0x4 then .XOR else if funct3 = 0x5 then .SRL
        else if funct3 = 0x6 then .OR else if funct3 = 0x7 then .AND
        else .INVALID
      else if funct7 = 0x20 then
        if funct3 = 0x0 then .SUB else if funct3 = 0x5 then .SRA else .INVALID
      else .INVALID
    { inst with format := .R_TYPE,
                rd := (((rawInst >>> 7) &&& 0x1F : Nat) : Int),
                rs1 := (((rawInst >>> 15) &&& 0x1F : Nat) : Int),
                rs2 := (((rawInst >>> 20) &&& 0x1F : Nat) : Int),
                opcode := opc }
  else if opcodeField = 0x13 then
    let funct3 := (rawInst >>> 12) &&& 0x7
    let opc : Opcode :=
      if funct3 = 0x0 then .ADDI else if funct3 = 0x2 then .SLTI
      else if funct3 = 0x3 then .SLTIU else if funct3 = 0x4 then .XORI
      else if funct3 = 0x6 then .ORI else if funct3 = 0x7 then .ANDI
      else if funct3 = 0x1 then .SLLI
      else if funct3 = 0x5 then
        (if (rawInst >>> 25) &&& 0x7F = 0x00 then .SRLI
         else if (rawInst >>> 25) &&& 0x7F = 0x20 then .SRAI
         else .INVALID)
      else .INVALID
    { inst with format := .I_TYPE,
                rd := (((rawInst >>> 7) &&& 0x1F : Nat) : Int),
                rs1 := (((rawInst >>> 15) &&& 0x1F : Nat) : Int),
                immediate := signExt12 (rawInst >>> 20),
                opcode := opc }
  else if opcodeField = 0x03 then
    let funct3 := (rawInst >>> 12) &&& 0x7
    let opc : Opcode :=
      if funct3 = 0x0 then .LB else if funct3 = 0x1 then .LH
      else if funct3 = 0x2 then .LW else if funct3 = 0x4 then .LBU
      else if funct3 = 0x5 then .LHU else .INVALID
    { inst with format := .I_TYPE,
                rd := (((rawInst >>> 7) &&& 0x1F : Nat) : Int),
                rs1 := (((rawInst >>> 15) &&& 0x1F : Nat) : Int),
                immediate := signExt12 (rawInst >>> 20),
                opcode := opc }
  else if opcodeField = 0x23 then
    let funct3 := (rawInst >>> 12) &&& 0x7
    let imm0 := (((rawInst >>> 25) &&& 0x7F) <<< 5) ||| ((rawInst >>> 7) &&& 0x1F)
    let opc : Opcode :=
      if funct3 = 0x0 then .SB else if funct3 = 0x1 then .SH
      else if funct3 = 0x2 then .SW else .INVALID
    { inst with format := .S_TYPE,
                rs1 := (((rawInst >>> 15) &&& 0x1F : Nat) : Int),
                rs2 := (((rawInst >>> 20) &&& 0x1F : Nat) : Int),
                immediate := signExt12 imm0,
                opcode := opc }
  else if opcodeField = 0x63 then
    let funct3 := (rawInst >>> 12) &&& 0x7
    let imm0 := (((rawInst >>> 31) &&& 0x1) <<< 12) ||| (((rawInst >>> 7) &&& 0x1) <<< 11) |||
                (((rawInst >>> 25) &&& 0x3F) <<< 5) ||| (((rawInst >>> 8) &&& 0xF) <<< 1)
    let imm1 := if imm0 &&& 0x1000 ≠ 0 then imm0 ||| 0xFFFFE000 else imm0
    let opc : Opcode :=
      if funct3 = 0x0 then .BEQ else if funct3 = 0x1 then .BNE
      else if funct3 = 0x4 then .BLT else if funct3 = 0x5 then .BGE
      else if funct3 = 0x6 then .BLTU else if funct3 = 0x7 then .BGEU
      else .INVALID
    { inst with format := .B_TYPE,
                rs1 := (((rawInst >>> 15) &&& 0x1F : Nat) : Int),
                rs2 := (((rawInst >>> 20) &&& 0x1F : Nat) : Int),
                immediate := imm1,
                opcode := opc }
  else if opcodeField = 0x37 then
    { inst with format := .U_TYPE,
                rd := (((rawInst >>> 7) &&& 0x1F : Nat) : Int),
                immediate := rawInst &&& 0xFFFFF000,
                opcode := .LUI }
  else if opcodeField = 0x17 then
    { inst with format := .U_TYPE,
                rd := (((rawInst >>> 7) &&& 0x1F : Nat) : Int),
                immediate := rawInst &&& 0xFFFFF000,
                opcode := .AUIPC }
  else if opcodeField = 0x6F then
    let imm0 := (((rawInst >>> 31) &&& 0x1) <<< 20) ||| (((rawInst >>> 12) &&& 0xFF) <<< 12) |||
                (((rawInst >>> 20) &&& 0x1) <<< 11) ||| (((rawInst >>> 21) &&& 0x3FF) <<< 1)
    let imm1 := if imm0 &&& 0x100000 ≠ 0 then imm0 ||| 0xFFF00000 else imm0
    { inst with format := .J_TYPE,
                rd := (((rawInst >>> 7) &&& 0x1F : Nat) : Int),
                immediate := imm1,
                opcode := .JAL }
  else if opcodeField = 0x67 then
    { inst with format := .I_TYPE,
                rd := (((rawInst >>> 7) &&& 0x1F : Nat) : Int),
                rs1 := (((rawInst >>> 15) &&& 0x1F : Nat) : Int),
                immediate := signExt12 (rawInst >>> 20),
                opcode := .JALR }
  else
    { inst with opcode := .INVALID }

/-- Processor::setControlSignals: a fresh ControlSignals record, then a switch
on the format tag (the opcode is consulted only inside the I and U cases). -/
def setControlSignals (inst : Instruction) : ControlSignals :=
  match inst.format with
  | .R_TYPE => { regWrite := true, aluOp := 2 }
  | .I_TYPE =>
      if inst.opcode = .JALR then { regWrite := true, jump := true, aluOp := 0 }
      else if inst.opcode.isLoad then
        { regWrite := true, memRead := true, memToReg := true, aluSrc := true, aluOp := 0 }
      else { regWrite := true, aluSrc := true, aluOp := 3 }
  | .S_TYPE => { memWrite := true, aluSrc := true, aluOp := 0 }
  | .B_TYPE => { branch := true, aluOp := 1 }
  | .U_TYPE =>
      if inst.opcode = .AUIPC then { regWrite := true, aluOp := 0, aluSrc := true }
      else { regWrite := true, aluOp := 4, aluSrc := true }
  | .J_TYPE => { regWrite := true, jump := true }

/-- The hazard unit's "instruction actually reads rs1" test. -/
abbrev usesRs1 (i : Instruction) : Prop :=
  i.rs1 ≠ 0 ∧ i.format ≠ InstructionFormat.U_TYPE ∧ i.format ≠ InstructionFormat.J_TYPE

/-- The hazard unit's "instruction actually reads rs2" test. -/
abbrev usesRs2 (i : Instruction) : Prop :=
  i.rs2 ≠ 0 ∧ (i.format = InstructionFormat.R_TYPE ∨ i.format = InstructionFormat.B_TYPE ∨
    i.format = InstructionFormat.S_TYPE)

/-- Control-flow instruction test shared by the hazard unit and decode stage. -/
abbrev isBranchOrJump (i : Instruction) : Prop :=
  i.format = InstructionFormat.B_TYPE ∨ i.format = InstructionFormat.J_TYPE ∨
    (i.format = InstructionFormat.I_TYPE ∧ i.opcode = Opcode.JALR)

/-- HazardDetectionUnit::detectHazardF. -/
def detectHazardF (ifId : IF_ID_Register) (idEx : ID_EX_Register) (exMem : EX_MEM_Register)
    (memWb : MEM_WB_Register) (isForwarding : Bool) (isIFStage : Bool) : Bool :=
  if ¬ ifId.valid then false else
  let rs1 := ifId.instruction.rs1
  let rs2 := ifId.instruction.rs2
  if isIFStage ∧ ¬ isBranchOrJump ifId.instruction then false else
  if isForwarding then
    if idEx.valid ∧ idEx.control.memRead ∧ idEx.instruction.rd ≠ 0 ∧
        ((usesRs1 ifId.instruction ∧ rs1 = idEx.instruction.rd) ∨
         (usesRs2 ifId.instruction ∧ rs2 = idEx.instruction.rd)) then true
    else if isBranchOrJump ifId.instruction ∧ memWb.valid ∧ memWb.control.memRead ∧
        memWb.instruction.rd ≠ 0 ∧
        ((usesRs1 ifId.instruction ∧ rs1 = memWb.instruction.rd) ∨
         (usesRs2 ifId.instruction ∧ rs2 = memWb.instruction.rd)) then true
    else false
  else
    if idEx.valid ∧ idEx.control.regWrite ∧ idEx.instruction.rd ≠ 0 ∧
        ((usesRs1 ifId.instruction ∧ rs1 = idEx.instruction.rd) ∨
         (usesRs2 ifId.instruction ∧ rs2 = idEx.instruction.rd)) then true
    else if exMem.valid ∧ exMem.control.regWrite ∧ exMem.instruction.rd ≠ 0 ∧
        ((usesRs1 ifId.instruction ∧ rs1 = exMem.instruction.rd) ∨
         (usesRs2 ifId.instruction ∧ rs2 = exMem.instruction.rd)) then true
    else if memWb.valid ∧ memWb.control.regWrite ∧ memWb.instruction.rd ≠ 0 ∧
        ((usesRs1 ifId.instruction ∧ rs1 = memWb.instruction.rd) ∨
         (usesRs2 ifId.instruction ∧ rs2 = memWb.instruction.rd)) ∧ ¬ isIFStage then true
    else false

inductive ForwardSource where
  | FROM_REG | FROM_EX_MEM | FROM_MEM_WB
deriving DecidableEq

/-- ForwardingUnit::detectForwarding, returning (forwardA, forwardB). -/
def detectForwarding (idEx : ID_EX_Register) (exMem : EX_MEM_Register)
    (memWb : MEM_WB_Register) : ForwardSource × ForwardSource :=
  if ¬ idEx.valid then (.FROM_REG, .FROM_REG) else
  let forwardA : ForwardSource :=
    if idEx.instruction.rs1 ≠ 0 then
      if exMem.valid ∧ exMem.control.regWrite ∧ exMem.instruction.rd ≠ 0 ∧
          exMem.instruction.rd = idEx.instruction.rs1 then .FROM_EX_MEM
      else if memWb.valid ∧ memWb.control.regWrite ∧ memWb.instruction.rd ≠ 0 ∧
          memWb.instruction.rd = idEx.instruction.rs1 then .FROM_MEM_WB
      else .FROM_REG
    else .FROM_REG
  let forwardB : ForwardSource :=
    if idEx.instruction.rs2 ≠ 0 then
      if exMem.valid ∧ exMem.control.regWrite ∧ exMem.instruction.rd ≠ 0 ∧
          exMem.instruction.rd = idEx.instruction.rs2 then .FROM_EX_MEM
      else if memWb.valid ∧ memWb.control.regWrite ∧ memWb.instruction.rd ≠ 0 ∧
          memWb.instruction.rd = idEx.instruction.rs2 then .FROM_MEM_WB
      else .FROM_REG
    else .FROM_REG
  (forwardA, forwardB)

/-- The architectural state of the simulator (Processor plus the trace-address
table, which the fetch stage consults). -/
structure Processor where
  pc : Nat := 0
  instMem : List Nat := []
  regFile : List Nat := List.replicate 32 0
  dataMem : List Nat := List.replicate 1024 0
  ifId : IF_ID_Register := {}
  idEx : ID_EX_Register := {}
  exMem : EX_MEM_Register := {}
  memWb : MEM_WB_Register := {}
  instructionsExecuted : Nat := 0
  tracked : List Nat := []
deriving DecidableEq

/-- writeBackStage. -/
def writeBackStage (cpu : Processor) : Processor :=
  if ¬ cpu.memWb.valid then cpu
  else
    let regFile1 :=
      if cpu.memWb.control.regWrite ∧ cpu.memWb.instruction.rd ≠ 0 then
        regFileWrite cpu.regFile cpu.memWb.instruction.rd
          (if cpu.memWb.control.memToReg then cpu.memWb.readData else cpu.memWb.aluResult)
      else cpu.regFile
    { cpu with regFile := regFile1, instructionsExecuted := cpu.instructionsExecuted + 1 }

/-- memoryStage. -/
def memoryStage (cpu : Processor) : Processor :=
  if ¬ cpu.exMem.valid then { cpu with memWb := { cpu.memWb with valid := false } }
  else
    let address := cpu.exMem.aluResult.result
    let readData :=
      if cpu.exMem.control.memRead then
        match cpu.exMem.instruction.opcode with
        | .LB =>
            let v := dataMemRead cpu.dataMem address 1
            if v &&& 0x80 ≠ 0 then v ||| 0xFFFFFF00 else v
        | .LH =>
            let v := dataMemRead cpu.dataMem address 2
            if v &&& 0x8000 ≠ 0 then v ||| 0xFFFF0000 else v
        | .LW => dataMemRead cpu.dataMem address 4
        | .LBU => (dataMemRead cpu.dataMem address 1) &&& 0xFF
        | .LHU => (dataMemRead cpu.dataMem address 2) &&& 0xFFFF
        | _ => 0
      else 0
    let dataMem1 :=
      if cpu.exMem.control.memWrite then
        match cpu.exMem.instruction.opcode with
        | .SB => dataMemWrite cpu.dataMem address cpu.exMem.readData2 1
        | .SH => dataMemWrite cpu.dataMem address cpu.exMem.readData2 2
        | .SW => dataMemWrite cpu.dataMem address cpu.exMem.readData2 4
        | _ => cpu.dataMem
      else cpu.dataMem
    { cpu with dataMem := dataMem1,
               memWb := { pc := cpu.exMem.pc, instruction := cpu.exMem.instruction,
                          aluResult := cpu.exMem.aluResult.result, readData := readData,
                          control := cpu.exMem.control, valid := true } }

/-- The EX/MEM register as the forwarding unit sees it: executeStage assigns
`exMem.pc`, `exMem.control` and `exMem.readData2` from ID/EX before it calls
`detectForwarding`, so the unit reads the current instruction's control
signals but the previous instruction's `instruction`, `aluResult`, `valid`. -/
def exMemClobbered (cpu : Processor) : EX_MEM_Register :=
  { cpu.exMem with pc := cpu.idEx.pc, control := cpu.idEx.control,
                   readData2 := cpu.idEx.readData2 }

/-- The (forwardA, forwardB) pair executeStage obtains. -/
def forwardPair (cpu : Processor) : ForwardSource × ForwardSource :=
  detectForwarding cpu.idEx (exMemClobbered cpu) cpu.memWb

/-- The value MEM/WB commits (memory data if memToReg, else the ALU result). -/
def memWbValue (m : MEM_WB_Register) : Nat :=
  if m.control.memToReg then m.readData else m.aluResult

/-- First ALU operand selected by executeStage. -/
def aluInputA (isForwarding : Bool) (cpu : Processor) : Nat :=
  if isForwarding then
    match (forwardPair cpu).1 with
    | .FROM_EX_MEM => cpu.exMem.aluResult.result
    | .FROM_MEM_WB => memWbValue cpu.memWb
    | .FROM_REG => cpu.idEx.readData1
  else cpu.idEx.readData1

/-- Second ALU operand selected by executeStage. -/
def aluInputB (isForwarding : Bool) (cpu : Processor) : Nat :=
  if cpu.idEx.control.aluSrc then cpu.idEx.immediate
  else if isForwarding then
    match (forwardPair cpu).2 with
    | .FROM_EX_MEM => cpu.exMem.aluResult.result
    | .FROM_MEM_WB => memWbValue cpu.memWb
    | .FROM_REG => cpu.idEx.readData2
  else cpu.idEx.readData2

/-- The store data executeStage latches into EX/MEM readData2 (forwarded for
memWrite instructions, otherwise the ID/EX value). -/
def storeData (isForwarding : Bool) (cpu : Processor) : Nat :=
  if isForwarding ∧ cpu.idEx.control.memWrite then
    match (forwardPair cpu).2 with
    | .FROM_EX_MEM => cpu.exMem.aluResult.result
    | .FROM_MEM_WB => memWbValue cpu.memWb
    | .FROM_REG => cpu.idEx.readData2
  else cpu.idEx.readData2

/-- The ALU result switch of executeStage. -/
def aluCompute (op : Opcode) (pc : Nat) (immediate : Nat) (a b : Nat) : Nat :=
  match op with
  | .ADD | .ADDI | .LB | .LH | .LW | .LBU | .LHU | .SB | .SH | .SW | .JALR => add32 a b
  | .SUB => sub32 a b
  | .AND | .ANDI => a &&& b
  | .OR | .ORI => a ||| b
  | .XOR | .XORI => a ^^^ b
  | .SLL | .SLLI => (a <<< (b &&& 0x1F)) % 2 ^ 32
  | .SRL | .SRLI => a >>> (b &&& 0x1F)
  | .SRA | .SRAI => sra32 a (b &&& 0x1F)
  | .SLT | .SLTI | .BLT | .BGE => if toSigned a < toSigned b then 1 else 0
  | .SLTU | .SLTIU | .BLTU | .BGEU => if a < b then 1 else 0
  | .BEQ => if a = b then 1 else 0
  | .BNE => if a ≠ b then 1 else 0
  | .JAL => add32 pc 4
  | .LUI => immediate
  | .AUIPC => add32 pc immediate
  | .INVALID => 0

/-- executeStage.  Fields of EX/MEM the C++ never assigns (branchTaken,
branchTarget, aluResult.overflow) keep their previous values. -/
def executeStage (isForwarding : Bool) (cpu : Processor) : Processor :=
  if ¬ cpu.idEx.valid then { cpu with exMem := { cpu.exMem with valid := false } }
  else
    let a := aluInputA isForwarding cpu
    let b := aluInputB isForwarding cpu
    let result := aluCompute cpu.idEx.instruction.opcode cpu.idEx.pc cpu.idEx.immediate a b
    { cpu with exMem := { cpu.exMem with
        pc := cpu.idEx.pc,
        control := cpu.idEx.control,
        readData2 := storeData isForwarding cpu,
        instruction := cpu.idEx.instruction,
        aluResult := { result := result, zero := decide (result = 0),
                       negative := decide (2 ^ 31 ≤ result),
                       overflow := cpu.exMem.aluResult.overflow },
        valid := true } }

/-- The rs1Value/rs2Value computation of the decode stage's forwarding path
(the C++ has this code twice, once for rs1 and once for rs2). -/
def branchSourceValue (cpu : Processor) (rs : Int) : Nat :=
  if rs ≠ 0 then
    if cpu.exMem.valid ∧ cpu.exMem.control.regWrite ∧ cpu.exMem.instruction.rd ≠ 0 ∧
        cpu.exMem.instruction.rd = rs then cpu.exMem.aluResult.result
    else if cpu.memWb.valid ∧ cpu.memWb.control.regWrite ∧ cpu.memWb.instruction.rd ≠ 0 ∧
        cpu.memWb.instruction.rd = rs then memWbValue cpu.memWb
    else regFileRead cpu.regFile rs
  else 0

/-- The conditional-branch condition switch of the decode stage (operand
values are 32-bit patterns of the int32 values; BLT/BGE compare them signed,
BLTU/BGEU compare the uint32 casts). -/
def branchConditionMet (op : Opcode) (rs1Value rs2Value : Nat) : Bool :=
  match op with
  | .BEQ => decide (rs1Value = rs2Value)
  | .BNE => decide (rs1Value ≠ rs2Value)
  | .BLT => decide (toSigned rs1Value < toSigned rs2Value)
  | .BGE => decide (toSigned rs2Value ≤ toSigned rs1Value)
  | .BLTU => decide (rs1Value < rs2Value)
  | .BGEU => decide (rs2Value ≤ rs1Value)
  | _ => false

/-- The decode stage's "branch depends on a result still in ID/EX" stall test
(forwarding mode only). -/
abbrev branchNeedsStall (cpu : Processor) : Prop :=
  (cpu.ifId.instruction.rs1 ≠ 0 ∧ cpu.idEx.valid ∧ cpu.idEx.control.regWrite ∧
    cpu.idEx.instruction.rd ≠ 0 ∧ cpu.idEx.instruction.rd = cpu.ifId.instruction.rs1) ∨
  (cpu.ifId.instruction.rs2 ≠ 0 ∧ cpu.idEx.valid ∧ cpu.idEx.control.regWrite ∧
    cpu.idEx.instruction.rd ≠ 0 ∧ cpu.idEx.instruction.rd = cpu.ifId.instruction.rs2)

/-- The control signals the decode stage latches into ID/EX: the control-unit
output, with branch and jump cleared when the branch was taken this cycle. -/
def latchControl (i : Instruction) (taken : Bool) : ControlSignals :=
  let control0 := setControlSignals i
  if taken then { control0 with branch := false, jump := false } else control0

/-- Result of the decode stage: the new state plus the stall/branch signals it
reports to the driver through its reference parameters. -/
structure IDOut where
  proc : Processor
  stall : Bool
  branchTaken : Bool
  branchTarget : Nat
deriving DecidableEq

/-- instructionDecodeStage. -/
def instructionDecodeStage (isForwarding : Bool) (cpu : Processor) : IDOut :=
  if ¬ cpu.ifId.valid then
    { proc := { cpu with idEx := { cpu.idEx with valid := false } },
      stall := false, branchTaken := false, branchTarget := 0 }
  else
  let isStalled := detectHazardF cpu.ifId cpu.idEx cpu.exMem cpu.memWb isForwarding false
  if isStalled then
    -- the stall path registers the next PC in the trace-address table when it
    -- is a fresh in-range address (initInstructionTrace)
    let nextPC := cpu.pc
    let tracked1 :=
      if nextPC ∉ cpu.tracked ∧ nextPC / 4 < cpu.instMem.length then cpu.tracked ++ [nextPC]
      else cpu.tracked
    { proc := { cpu with tracked := tracked1, idEx := { cpu.idEx with valid := false } },
      stall := true, branchTaken := false, branchTarget := 0 }
  else
  if isBranchOrJump cpu.ifId.instruction ∧ isForwarding ∧ branchNeedsStall cpu then
    { proc := { cpu with idEx := { cpu.idEx with valid := false } },
      stall := true, branchTaken := false, branchTarget := 0 }
  else
  let bt :=
    if isBranchOrJump cpu.ifId.instruction then
      let rs1Value :=
        if isForwarding then branchSourceValue cpu cpu.ifId.instruction.rs1
        else regFileRead cpu.regFile cpu.ifId.instruction.rs1
      let rs2Value :=
        if isForwarding then branchSourceValue cpu cpu.ifId.instruction.rs2
        else regFileRead cpu.regFile cpu.ifId.instruction.rs2
      if cpu.ifId.instruction.format = InstructionFormat.J_TYPE then
        (true, add32 cpu.ifId.pc cpu.ifId.instruction.immediate)
      else if cpu.ifId.instruction.opcode = Opcode.JALR then
        (true, (add32 rs1Value cpu.ifId.instruction.immediate) &&& 0xFFFFFFFE)
      else if cpu.ifId.instruction.format = InstructionFormat.B_TYPE then
        (if branchConditionMet cpu.ifId.instruction.opcode rs1Value rs2Value then
          (true, add32 cpu.ifId.pc cpu.ifId.instruction.immediate)
         else (false, 0))
      else (false, 0)
    else (false, 0)
  { proc := { cpu with idEx := {
        pc := cpu.ifId.pc,
        instruction := cpu.ifId.instruction,
        readData1 := regFileRead cpu.regFile cpu.ifId.instruction.rs1,
        readData2 := regFileRead cpu.regFile cpu.ifId.instruction.rs2,
        immediate := cpu.ifId.instruction.immediate,
        control := latchControl cpu.ifId.instruction bt.1,
        valid := true } },
    stall := false, branchTaken := bt.1, branchTarget := bt.2 }

/-- instructionFetchStage.  A PC with no entry in the trace-address table
leaves IF/ID invalid; otherwise the latch is refilled and the PC advances.
(The trailing detectHazardF call with isIFStage=true writes a stall flag the
driver never reads afterwards, so it has no architectural effect.) -/
def instructionFetchStage (stall : Bool) (cpu : Processor) : Processor :=
  if stall then cpu
  else
    let instruction := readInstruction cpu.instMem cpu.pc
    if cpu.pc ∉ cpu.tracked then { cpu with ifId := { cpu.ifId with valid := false } }
    else
      { cpu with
        ifId := { pc := cpu.pc,
                  instruction := decodeInstruction instruction cpu.ifId.instruction,
                  valid := true },
        pc := add32 cpu.pc 4 }

/-- The EX/MEM-based redirect condition tested by the driver after each cycle. -/
abbrev exMemRedirect (p : Processor) : Prop :=
  p.exMem.valid = true ∧
    ((p.exMem.control.branch = true ∧ p.exMem.branchTaken = true) ∨ p.exMem.control.jump = true)

/-- One loop iteration of executePipeline: WB, MEM, EX, ID, IF in order, then
the decode-reported redirect, then the (dead) EX/MEM-based redirect. -/
def stepCycle (isForwarding : Bool) (p0 : Processor) : Processor :=
  let p1 := writeBackStage p0
  let p2 := memoryStage p1
  let p3 := executeStage isForwarding p2
  let d := instructionDecodeStage isForwarding p3
  let p5 := instructionFetchStage d.stall d.proc
  let p6 :=
    if d.branchTaken then { p5 with pc := d.branchTarget, ifId := { p5.ifId with valid := false } }
    else p5
  if exMemRedirect p6 then
    { p6 with pc := p6.exMem.branchTarget, ifId := { p6.ifId with valid := false } }
  else p6

/-- The state executePipeline starts from: reset processor, every instruction
memory address pre-registered in the trace table, PC 0. -/
def initProcessor (program : List Nat) : Processor :=
  { instMem := program, tracked := (List.range program.length).map (fun i => i * 4) }

/-- executePipeline run for a number of cycles. -/
def executePipeline (isForwarding : Bool) (program : List Nat) : Nat → Processor
  | 0 => initProcessor program
  | n + 1 => stepCycle isForwarding (executePipeline isForwarding program n)

set_option maxRecDepth 40000

/-- Program image: addi x1,x0,7 ; sw x1,0(x0) ; lw x2,0(x0) ; add x3,x2,x2. -/
def progC1 : List Nat := [0x00700093, 0x00102023, 0x00002103, 0x002101B3]

/-- C1: the claim fails on the code.  On progC1 both runs drain well within 20
cycles, yet the forwarding run commits x3 = 0 (the load-use consumer add
x3,x2,x2 latches the stale register value at decode and the forwarding paths
are both invalid at its execute cycle) while the no-forwarding run, with its
stricter stalls, commits x3 = 14; the final register files differ. -/
theorem forwardingChangesArchitecturalState :
    regFileRead (executePipeline true progC1 20).regFile 3 = 0 ∧
    regFileRead (executePipeline false progC1 20).regFile 3 = 14 ∧
    (executePipeline true progC1 20).regFile ≠ (executePipeline false progC1 20).regFile := by
  refine ⟨by decide, by decide, by decide⟩

/-- Program image: addi x1,x0,100 ; jalr x5,x1,0. -/
def progC2 : List Nat := [0x06400093, 0x000082E7]

/-- C2: the claim fails on the code for JALR.  The jump itself is taken (the
final PC is the computed target 100), but the value committed to rd = x5 is
not PC+4 = 8: the execute stage computes the JALR result as aluInput1 +
aluInput2 (the rs1 operand plus the stale rs2 read, here 0 + 0 = 0) instead
of the return address. -/
theorem jalrReturnAddressWrong :
    (executePipeline true progC2 10).pc = 100 ∧
    regFileRead (executePipeline true progC2 10).regFile 1 = 100 ∧
    regFileRead (executePipeline true progC2 10).regFile 5 = 0 ∧
    regFileRead (executePipeline true progC2 10).regFile 5 ≠ add32 4 4 := by
  refine ⟨by decide, by decide, by decide, by decide⟩

/-- Program image: addi x1,x0,5 alone. -/
def progC3a : List Nat := [0x00500093]

/-- Program image: addi x1,x0,5 followed by the undefined word 0x020000B3
(opcode field 0x33 with funct7 = 0x01, e.g. the RV32M mul encoding). -/
def progC3b : List Nat := [0x00500093, 0x020000B3]

/-- C3: the claim fails on the code.  The word 0x020000B3 decodes to an
INVALID instruction, but the control unit switches on the format tag
(R_TYPE) without consulting the opcode, so registerWrite comes out true; in
the pipeline the instruction then commits the default ALU result 0 to its
rd = x1, clobbering the 5 written by the preceding addi. -/
theorem invalidInstructionIsNotNoop :
    (decodeInstruction 0x020000B3 {}).opcode = Opcode.INVALID ∧
    (setControlSignals (decodeInstruction 0x020000B3 {})).regWrite = true ∧
    regFileRead (executePipeline true progC3a 8).regFile 1 = 5 ∧
    regFileRead (executePipeline true progC3b 8).regFile 1 = 0 := by
  refine ⟨by decide, by decide, by decide, by decide⟩

/-- C8: a fetch address past the end of instruction memory returns the
all-zero word, and the all-zero word decodes to an INVALID instruction
(whatever stale contents the decode target held). -/
theorem fetchBeyondEndOfInstructionMemory (memory : List Nat) (address : Nat)
    (prev : Instruction) (h : memory.length ≤ address / 4) :
    readInstruction memory address = 0 ∧
    (decodeInstruction (readInstruction memory address) prev).opcode = Opcode.INVALID := by
  have h0 : readInstruction memory address = 0 := by
    unfold readInstruction
    rw [if_neg]
    omega
  exact ⟨h0, by rw [h0]; rfl⟩

/-- C8 witness: the theorem applied to the empty instruction memory at
address 0. -/
theorem fetchBeyondEndOfInstructionMemoryWitness :
    ([] : List Nat).length ≤ 0 / 4 ∧
    (readInstruction [] 0 = 0 ∧
      (decodeInstruction (readInstruction [] 0) {}).opcode = Opcode.INVALID) :=
  ⟨Nat.le_refl 0, fetchBeyondEndOfInstructionMemory [] 0 {} (Nat.le_refl 0)⟩

/-- C10: writeBackStage increments the retired-instruction counter by exactly
1 when MEM/WB holds a valid entry and by 0 on a bubble, independently of the
control signals (stores, branches and INVALID instructions count too). -/
theorem retiredInstructionCounterStep (p : Processor) :
    (writeBackStage p).instructionsExecuted =
      p.instructionsExecuted + (if p.memWb.valid then 1 else 0) := by
  unfold writeBackStage
  by_cases h : p.memWb.valid = true <;> simp [h]

/-- regFileWrite never changes slot 0: the guard requires a strictly positive
register index. -/
theorem regFileWrite_getD_zero (registers : List Nat) (reg : Int) (value : Nat) :
    (regFileWrite registers reg value).getD 0 0 = registers.getD 0 0 := by
  unfold regFileWrite
  split
  · next h =>
    have hne : reg.toNat ≠ 0 := by omega
    simp [List.getD_eq_getElem?_getD, List.getElem?_set_ne hne]
  · rfl

/-- writeBackStage never changes register-file slot 0. -/
theorem writeBackStage_getD_zero (p : Processor) :
    (writeBackStage p).regFile.getD 0 0 = p.regFile.getD 0 0 := by
  simp only [writeBackStage]
  split
  · rfl
  · split
    · exact regFileWrite_getD_zero ..
    · rfl

/-- memoryStage leaves the register file unchanged. -/
theorem memoryStage_regFile (p : Processor) : (memoryStage p).regFile = p.regFile := by
  simp only [memoryStage]
  split <;> rfl

/-- executeStage leaves the register file unchanged. -/
theorem executeStage_regFile (isForwarding : Bool) (p : Processor) :
    (executeStage isForwarding p).regFile = p.regFile := by
  simp only [executeStage]
  split <;> rfl

/-- instructionDecodeStage leaves the register file unchanged. -/
theorem instructionDecodeStage_regFile (isForwarding : Bool) (p : Processor) :
    (instructionDecodeStage isForwarding p).proc.regFile = p.regFile := by
  simp only [instructionDecodeStage]
  split <;> first | rfl | (split <;> first | rfl | (split <;> rfl))

/-- instructionFetchStage leaves the register file unchanged. -/
theorem instructionFetchStage_regFile (stall : Bool) (p : Processor) :
    (instructionFetchStage stall p).regFile = p.regFile := by
  simp only [instructionFetchStage]
  split <;> first | rfl | (split <;> rfl)

/-- One pipeline cycle never changes register-file slot 0. -/
theorem stepCycle_getD_zero (isForwarding : Bool) (p : Processor) :
    (stepCycle isForwarding p).regFile.getD 0 0 = p.regFile.getD 0 0 := by
  simp only [stepCycle]
  split <;> split <;>
    simp [instructionFetchStage_regFile, instructionDecodeStage_regFile,
      executeStage_regFile, memoryStage_regFile] <;>
    simpa using writeBackStage_getD_zero p

/-- C9: in every reachable state, reading register 0 yields 0 and any write
targeting register 0 is dropped, so slot 0 of the register file is 0
regardless of the program. -/
theorem registerZeroHardwired (isForwarding : Bool) (program : List Nat) (n : Nat) :
    regFileRead (executePipeline isForwarding program n).regFile 0 = 0 ∧
    ∀ value : Nat,
      regFileWrite (executePipeline isForwarding program n).regFile 0 value =
        (executePipeline isForwarding program n).regFile := by
  have key : ∀ m : Nat, ((executePipeline isForwarding program m).regFile).getD 0 0 = 0 := by
    intro m
    induction m with
    | zero => rfl
    | succ k ih => rw [executePipeline, stepCycle_getD_zero, ih]
  constructor
  · have h := key n
    unfold regFileRead
    rw [if_pos (by omega)]
    simpa using h
  · intro value
    unfold regFileWrite
    rw [if_neg (by omega)]

/-- setControlSignals raises jump only for JAL (J-format) and JALR. -/
theorem setControlSignals_jump_false (i : Instruction)
    (h1 : i.format ≠ InstructionFormat.J_TYPE)
    (h2 : ¬ (i.format = InstructionFormat.I_TYPE ∧ i.opcode = Opcode.JALR)) :
    (setControlSignals i).jump = false := by
  cases hf : i.format
  case J_TYPE => exact absurd hf h1
  case I_TYPE =>
    by_cases hj : i.opcode = Opcode.JALR
    · exact absurd ⟨hf, hj⟩ h2
    · simp only [setControlSignals, hf]
      rw [if_neg hj]
      split <;> rfl
  all_goals simp only [setControlSignals, hf] <;> first | rfl | (split <;> rfl)

/-- latchControl yields jump = false as long as an untaken latch would. -/
theorem latchControl_jump (i : Instruction) (taken : Bool)
    (h : taken = false → (setControlSignals i).jump = false) :
    (latchControl i taken).jump = false := by
  unfold latchControl
  cases taken
  · simpa using h rfl
  · rfl

/-- writeBackStage leaves EX/MEM and ID/EX unchanged. -/
theorem writeBackStage_exMem_idEx (p : Processor) :
    (writeBackStage p).exMem = p.exMem ∧ (writeBackStage p).idEx = p.idEx := by
  simp only [writeBackStage]
  split <;> exact ⟨rfl, rfl⟩

/-- memoryStage leaves EX/MEM and ID/EX unchanged. -/
theorem memoryStage_exMem_idEx (p : Processor) :
    (memoryStage p).exMem = p.exMem ∧ (memoryStage p).idEx = p.idEx := by
  simp only [memoryStage]
  split <;> exact ⟨rfl, rfl⟩

/-- executeStage leaves ID/EX unchanged. -/
theorem executeStage_idEx (isForwarding : Bool) (p : Processor) :
    (executeStage isForwarding p).idEx = p.idEx := by
  simp only [executeStage]
  split <;> rfl

/-- executeStage never writes the branchTaken/branchTarget fields of EX/MEM. -/
theorem executeStage_branchFields (isForwarding : Bool) (p : Processor) :
    (executeStage isForwarding p).exMem.branchTaken = p.exMem.branchTaken ∧
    (executeStage isForwarding p).exMem.branchTarget = p.exMem.branchTarget := by
  simp only [executeStage]
  split <;> exact ⟨rfl, rfl⟩

/-- executeStage propagates the ID/EX jump signal into EX/MEM, so a jump-free
ID/EX yields a jump-free EX/MEM whenever the latter is valid. -/
theorem executeStage_exMem_jump (isForwarding : Bool) (p : Processor)
    (h : p.idEx.valid = true → p.idEx.control.jump = false) :
    (executeStage isForwarding p).exMem.valid = true →
    (executeStage isForwarding p).exMem.control.jump = false := by
  simp only [executeStage]
  split
  · intro hv; simp at hv
  · next hval =>
    intro _
    exact h (by revert hval; simp)

/-- instructionDecodeStage leaves EX/MEM unchanged. -/
theorem instructionDecodeStage_exMem (isForwarding : Bool) (p : Processor) :
    (instructionDecodeStage isForwarding p).proc.exMem = p.exMem := by
  simp only [instructionDecodeStage]
  split <;> first | rfl | (split <;> first | rfl | (split <;> rfl))

/-- The decode stage clears the jump signal of every taken branch/jump and
never latches a jump-signal-carrying instruction without taking it, so the
ID/EX register it produces carries jump = false whenever it is valid. -/
theorem instructionDecodeStage_idEx_jump (isForwarding : Bool) (p : Processor) :
    (instructionDecodeStage isForwarding p).proc.idEx.valid = true →
    (instructionDecodeStage isForwarding p).proc.idEx.control.jump = false := by
  simp only [instructionDecodeStage]
  split
  · intro hv; simp at hv
  · split
    · intro hv; simp at hv
    · split
      · intro hv; simp at hv
      · intro _
        refine latchControl_jump p.ifId.instruction _ ?_
        intro hbt0
        refine setControlSignals_jump_false p.ifId.instruction ?_ ?_
        · intro hJ
          have hbj : isBranchOrJump p.ifId.instruction := Or.inr (Or.inl hJ)
          simp [hbj, hJ] at hbt0
        · rintro ⟨hI, hJR⟩
          have hbj : isBranchOrJump p.ifId.instruction := Or.inr (Or.inr ⟨hI, hJR⟩)
          simp [hbj, hI, hJR] at hbt0

/-- instructionFetchStage leaves EX/MEM and ID/EX unchanged. -/
theorem instructionFetchStage_exMem_idEx (stall : Bool) (p : Processor) :
    (instructionFetchStage stall p).exMem = p.exMem ∧
    (instructionFetchStage stall p).idEx = p.idEx := by
  simp only [instructionFetchStage]
  split <;> first | exact ⟨rfl, rfl⟩ | (split <;> exact ⟨rfl, rfl⟩)

/-- The C6 invariant: the EX/MEM branch fields hold their reset values and
neither EX/MEM nor ID/EX carries an uncleared jump signal while valid. -/
abbrev c6Invariant (p : Processor) : Prop :=
  p.exMem.branchTaken = false ∧ p.exMem.branchTarget = 0 ∧
  (p.exMem.valid = true → p.exMem.control.jump = false) ∧
  (p.idEx.valid = true → p.idEx.control.jump = false)

/-- One pipeline cycle preserves the C6 invariant. -/
theorem stepCycle_c6 (isForwarding : Bool) (p : Processor) (h : c6Invariant p) :
    c6Invariant (stepCycle isForwarding p) := by
  obtain ⟨h1, h2, h3, h4⟩ := h
  have wb := writeBackStage_exMem_idEx p
  have mem := memoryStage_exMem_idEx (writeBackStage p)
  set p2 := memoryStage (writeBackStage p) with hp2
  have hEx2 : p2.exMem = p.exMem := by rw [mem.1, wb.1]
  have hId2 : p2.idEx = p.idEx := by rw [mem.2, wb.2]
  have exBF := executeStage_branchFields isForwarding p2
  have exJ := executeStage_exMem_jump isForwarding p2 (by rw [hId2]; exact h4)
  have exId := executeStage_idEx isForwarding p2
  set p3 := executeStage isForwarding p2 with hp3
  have decEx := instructionDecodeStage_exMem isForwarding p3
  have decJ := instructionDecodeStage_idEx_jump isForwarding p3
  set d := instructionDecodeStage isForwarding p3 with hd
  have fet := instructionFetchStage_exMem_idEx d.stall d.proc
  set p5 := instructionFetchStage d.stall d.proc with hp5
  have hEx5 : p5.exMem = p3.exMem := by rw [fet.1, decEx]
  have hId5 : p5.idEx = d.proc.idEx := fet.2
  have inv5 : c6Invariant p5 := by
    refine ⟨?_, ?_, ?_, ?_⟩
    · rw [hEx5, exBF.1, hEx2, h1]
    · rw [hEx5, exBF.2, hEx2, h2]
    · rw [hEx5]; exact exJ
    · rw [hId5]; exact decJ
  simp only [stepCycle]
  rw [← hp2, ← hp3, ← hd, ← hp5]
  split <;> split <;> exact inv5

/-- C6: in every reachable state of either pipeline, the EX/MEM branchTaken
and branchTarget fields still hold their reset values (no stage ever writes
them) and the driver's EX/MEM-based redirect condition is false, so the
decode stage is the only source of control-flow redirects. -/
theorem exMemBranchFieldsNeverRedirect (isForwarding : Bool) (program : List Nat) (n : Nat) :
    (executePipeline isForwarding program n).exMem.branchTaken = false ∧
    (executePipeline isForwarding program n).exMem.branchTarget = 0 ∧
    ¬ exMemRedirect (executePipeline isForwarding program n) := by
  have key : ∀ m : Nat, c6Invariant (executePipeline isForwarding program m) := by
    intro m
    induction m with
    | zero => exact ⟨rfl, rfl, fun hv => Bool.noConfusion hv, fun hv => Bool.noConfusion hv⟩
    | succ k ih => exact stepCycle_c6 isForwarding _ ih
  obtain ⟨h1, h2, h3, h4⟩ := key n
  refine ⟨h1, h2, ?_⟩
  rintro ⟨hv, hcase | hj⟩
  · rw [h1] at hcase
    exact Bool.false_ne_true hcase.2
  · rw [h3 hv] at hj
    exact Bool.false_ne_true hj

/-- The comparison semantics the specification assigns to each conditional
branch: equality or its negation for BEQ/BNE, signed (two's-complement)
order for BLT/BGE, unsigned order on the raw 32-bit patterns for BLTU/BGEU;
any other opcode is never taken. -/
def branchSemantics (op : Opcode) (a b : Nat) : Bool :=
  match op with
  | .BEQ => decide (a = b)
  | .BNE => decide (¬ a = b)
  | .BLT => decide (toSigned a < toSigned b)
  | .BGE => decide (toSigned a ≥ toSigned b)
  | .BLTU => decide (a < b)
  | .BGEU => decide (a ≥ b)
  | _ => false

/-- C7: a conditional branch sitting in a valid IF/ID entry, with the other
pipeline registers empty (so no stall and no decode-time forwarding applies,
and this statement covers both pipeline variants through isForwarding), is
resolved exactly by the defined comparison semantics on the register-file
operand values, and a taken branch redirects to its PC plus the
sign-extended immediate (mod 2^32). -/
theorem branchResolutionMatchesSemantics (isForwarding : Bool) (p : Processor)
    (h0 : p.regFile.getD 0 0 = 0)
    (h1 : p.ifId.valid = true) (h2 : p.idEx.valid = false) (h3 : p.exMem.valid = false)
    (h4 : p.memWb.valid = false) (h5 : p.ifId.instruction.format = InstructionFormat.B_TYPE)
    (h6 : p.ifId.instruction.opcode = Opcode.BEQ ∨ p.ifId.instruction.opcode = Opcode.BNE ∨
          p.ifId.instruction.opcode = Opcode.BLT ∨ p.ifId.instruction.opcode = Opcode.BGE ∨
          p.ifId.instruction.opcode = Opcode.BLTU ∨ p.ifId.instruction.opcode = Opcode.BGEU) :
    (instructionDecodeStage isForwarding p).branchTaken =
      branchSemantics p.ifId.instruction.opcode
        (regFileRead p.regFile p.ifId.instruction.rs1)
        (regFileRead p.regFile p.ifId.instruction.rs2) ∧
    ((instructionDecodeStage isForwarding p).branchTaken = true →
      (instructionDecodeStage isForwarding p).branchTarget =
        add32 p.ifId.pc p.ifId.instruction.immediate) := by
  have hJ : p.ifId.instruction.format ≠ InstructionFormat.J_TYPE := by rw [h5]; intro hc; cases hc
  have hJR : p.ifId.instruction.opcode ≠ Opcode.JALR := by
    rcases h6 with h | h | h | h | h | h <;> rw [h] <;> intro hc <;> cases hc
  have hbj : isBranchOrJump p.ifId.instruction := Or.inl h5
  have hsv1 : branchSourceValue p p.ifId.instruction.rs1 =
      regFileRead p.regFile p.ifId.instruction.rs1 := by
    unfold branchSourceValue
    by_cases hr : p.ifId.instruction.rs1 ≠ 0
    · rw [if_pos hr, if_neg (by simp [h3]), if_neg (by simp [h4])]
    · rw [if_neg hr]
      push_neg at hr
      rw [hr]
      unfold regFileRead
      rw [if_pos (by omega)]
      exact h0.symm
  have hsv2 : branchSourceValue p p.ifId.instruction.rs2 =
      regFileRead p.regFile p.ifId.instruction.rs2 := by
    unfold branchSourceValue
    by_cases hr : p.ifId.instruction.rs2 ≠ 0
    · rw [if_pos hr, if_neg (by simp [h3]), if_neg (by simp [h4])]
    · rw [if_neg hr]
      push_neg at hr
      rw [hr]
      unfold regFileRead
      rw [if_pos (by omega)]
      exact h0.symm
  have hsem : branchConditionMet p.ifId.instruction.opcode
        (regFileRead p.regFile p.ifId.instruction.rs1)
        (regFileRead p.regFile p.ifId.instruction.rs2) =
      branchSemantics p.ifId.instruction.opcode
        (regFileRead p.regFile p.ifId.instruction.rs1)
        (regFileRead p.regFile p.ifId.instruction.rs2) := by
    rcases h6 with h | h | h | h | h | h <;> rw [h] <;> rfl
  simp only [instructionDecodeStage]
  rw [if_neg (by simp [h1])]
  rw [if_neg (by simp [detectHazardF, h1, h2, h3, h4])]
  rw [if_neg (by simp [branchNeedsStall, h2])]
  rw [if_pos hbj, hsv1, hsv2]
  simp only [ite_self]
  rw [if_neg hJ, if_neg hJR, if_pos h5]
  by_cases hc : branchConditionMet p.ifId.instruction.opcode
      (regFileRead p.regFile p.ifId.instruction.rs1)
      (regFileRead p.regFile p.ifId.instruction.rs2) = true
  · rw [if_pos hc]
    rw [hsem] at hc
    exact ⟨hc.symm, fun _ => rfl⟩
  · rw [if_neg hc]
    rw [hsem] at hc
    refine ⟨by simpa using (Bool.not_eq_true _).mp hc, fun hcontra => ?_⟩
    exact absurd hcontra Bool.false_ne_true

/-- C7 witness: a BLT with operand patterns for -1 and 1 straddling the
signed/unsigned boundary; the branch is taken (signed -1 < 1) and redirects
to pc + 8. -/
def c7State : Processor :=
  { initProcessor [] with
    regFile := ((List.replicate 32 0).set 1 0xFFFFFFFF).set 2 1,
    ifId := { pc := 0,
              instruction := { raw := 0, opcode := .BLT, format := .B_TYPE,
                               rs1 := 1, rs2 := 2, rd := -1, immediate := 8 },
              valid := true } }

/-- C7 witness: the theorem applied to the concrete boundary state. -/
theorem branchResolutionMatchesSemanticsWitness :
    c7State.regFile.getD 0 0 = 0 ∧
    c7State.ifId.valid = true ∧ c7State.idEx.valid = false ∧ c7State.exMem.valid = false ∧
    c7State.memWb.valid = false ∧
    c7State.ifId.instruction.format = InstructionFormat.B_TYPE ∧
    c7State.ifId.instruction.opcode = Opcode.BLT ∧
    ((instructionDecodeStage true c7State).branchTaken =
      branchSemantics c7State.ifId.instruction.opcode
        (regFileRead c7State.regFile c7State.ifId.instruction.rs1)
        (regFileRead c7State.regFile c7State.ifId.instruction.rs2) ∧
     ((instructionDecodeStage true c7State).branchTaken = true →
       (instructionDecodeStage true c7State).branchTarget =
         add32 c7State.ifId.pc c7State.ifId.instruction.immediate)) ∧
    (instructionDecodeStage true c7State).branchTaken = true ∧
    (instructionDecodeStage true c7State).branchTarget = 8 :=
  ⟨rfl, rfl, rfl, rfl, rfl, rfl, rfl,
   branchResolutionMatchesSemantics true c7State rfl rfl rfl rfl rfl rfl
     (Or.inr (Or.inr (Or.inl rfl))),
   by decide, by decide⟩

/-- The stall condition claimed for the forwarding pipeline: a load sitting in
ID/EX whose non-zero destination matches a source register the IF/ID
instruction actually uses. -/
abbrev claimLoadUseStall (p : Processor) : Prop :=
  p.idEx.valid = true ∧ p.idEx.control.memRead = true ∧ p.idEx.instruction.rd ≠ 0 ∧
    ((usesRs1 p.ifId.instruction ∧ p.ifId.instruction.rs1 = p.idEx.instruction.rd) ∨
     (usesRs2 p.ifId.instruction ∧ p.ifId.instruction.rs2 = p.idEx.instruction.rd))

/-- The extra decode-stall source for control-flow instructions: a load in
MEM/WB whose non-zero destination matches a used source register. -/
abbrev memWbLoadStall (p : Processor) : Prop :=
  p.memWb.valid = true ∧ p.memWb.control.memRead = true ∧ p.memWb.instruction.rd ≠ 0 ∧
    ((usesRs1 p.ifId.instruction ∧ p.ifId.instruction.rs1 = p.memWb.instruction.rd) ∨
     (usesRs2 p.ifId.instruction ∧ p.ifId.instruction.rs2 = p.memWb.instruction.rd))

/-- What the decode-stage stall under forwarding actually is: the claimed
load-use condition, plus—for branch/jump/JALR instructions only—a load in
MEM/WB or any register-writing producer in ID/EX with a matching non-zero
destination. -/
abbrev decodeStallSpec (p : Processor) : Prop :=
  claimLoadUseStall p ∨
    (isBranchOrJump p.ifId.instruction ∧ (memWbLoadStall p ∨ branchNeedsStall p))

/-- The forwarding-mode decode-stage call of the hazard unit returns true
exactly on the load-use condition or the branch-with-MEM/WB-load condition. -/
theorem detectHazardF_decode_iff (p : Processor) (hv : p.ifId.valid = true) :
    (detectHazardF p.ifId p.idEx p.exMem p.memWb true false = true) ↔
      (claimLoadUseStall p ∨ (isBranchOrJump p.ifId.instruction ∧ memWbLoadStall p)) := by
  unfold detectHazardF
  rw [if_neg (by simp [hv])]
  rw [if_neg (by simp)]
  rw [if_pos (by simp)]
  split
  · next hA => exact iff_of_true rfl (Or.inl hA)
  · next hA =>
    split
    · next hB =>
      refine iff_of_true rfl (Or.inr ⟨hB.1, hB.2.1, hB.2.2.1, hB.2.2.2.1, hB.2.2.2.2⟩)
    · next hB =>
      refine iff_of_false (by simp) ?_
      rintro (h | h)
      · exact hA h
      · exact hB ⟨h.1, h.2.1, h.2.2.1, h.2.2.2.1, h.2.2.2.2⟩

/-- C4: corrected characterization of the decode-stage stall under
forwarding.  For an instruction latched in IF/ID it is raised exactly on the
claimed load-use hazard or, when the instruction is a branch, JAL or JALR,
also on a load in MEM/WB or a register-writing producer in ID/EX whose
non-zero destination matches a source register. -/
theorem decodeStallCharacterization (p : Processor) (h : p.ifId.valid = true) :
    ((instructionDecodeStage true p).stall = true) ↔ decodeStallSpec p := by
  simp only [instructionDecodeStage]
  rw [if_neg (by simp [h])]
  by_cases hS : detectHazardF p.ifId p.idEx p.exMem p.memWb true false = true
  · rw [if_pos hS]
    refine iff_of_true rfl ?_
    rcases (detectHazardF_decode_iff p h).mp hS with h1 | h1
    · exact Or.inl h1
    · exact Or.inr ⟨h1.1, Or.inl h1.2⟩
  · rw [if_neg hS]
    by_cases hN : isBranchOrJump p.ifId.instruction ∧ True ∧ branchNeedsStall p
    · rw [if_pos (by simpa using hN)]
      exact iff_of_true rfl (Or.inr ⟨hN.1, Or.inr hN.2.2⟩)
    · rw [if_neg (by simpa using hN)]
      refine iff_of_false (by simp) ?_
      have hiff : ¬ (claimLoadUseStall p ∨ (isBranchOrJump p.ifId.instruction ∧ memWbLoadStall p)) :=
        fun hx => hS ((detectHazardF_decode_iff p h).mpr hx)
      rintro (h1 | ⟨hb, h2 | h2⟩)
      · exact hiff (Or.inl h1)
      · exact hiff (Or.inr ⟨hb, h2⟩)
      · exact hN ⟨hb, trivial, h2⟩

/-- Program image: lw x1,0(x0) ; beq x1,x0,8. -/
def progC4 : List Nat := [0x00002083, 0x00008463]

/-- The pipeline-register state the decode stage of cycle 4 sees on progC4
(the driver has already run WB, MEM and EX of that cycle): the beq is in
IF/ID, ID/EX is a bubble, and the lw sits in MEM/WB. -/
def c4State : Processor :=
  executeStage true (memoryStage (writeBackStage (executePipeline true progC4 3)))

/-- C4 counterexample: in the reachable state c4State the decode stage stalls
(the beq in IF/ID waits for the lw in MEM/WB) although no producer at all
sits in ID/EX, so the claimed "stall iff load in ID/EX" equivalence is false
there. -/
theorem loadUseOnlyStallFails :
    ¬ (((instructionDecodeStage true c4State).stall = true) ↔ claimLoadUseStall c4State) := by
  decide

/-- C4 witness: the corrected characterization applied to the concrete
reachable state c4State. -/
theorem decodeStallCharacterizationWitness :
    c4State.ifId.valid = true ∧
    (((instructionDecodeStage true c4State).stall = true) ↔ decodeStallSpec c4State) :=
  ⟨by decide, decodeStallCharacterization c4State (by decide)⟩

/-- Claim-side selector for ALU operand A, following the claim's words: EX/MEM
valid with registerWrite set and non-zero destination matching rs1 forwards
the EX/MEM ALU result; else MEM/WB likewise forwards its committed value;
else the decode-time register-file value; register 0 never forwards. -/
def claimForwardA (p : Processor) : Nat :=
  if p.idEx.instruction.rs1 ≠ 0 ∧ (p.exMem.valid = true ∧ p.exMem.control.regWrite = true ∧
      p.exMem.instruction.rd ≠ 0 ∧ p.exMem.instruction.rd = p.idEx.instruction.rs1) then
    p.exMem.aluResult.result
  else if p.idEx.instruction.rs1 ≠ 0 ∧ (p.memWb.valid = true ∧ p.memWb.control.regWrite = true ∧
      p.memWb.instruction.rd ≠ 0 ∧ p.memWb.instruction.rd = p.idEx.instruction.rs1) then
    memWbValue p.memWb
  else p.idEx.readData1

/-- Amended selector for ALU operand A: as claimed, except that the EX/MEM
condition tests the registerWrite signal of the instruction entering Execute
(executeStage copies its control into EX/MEM before consulting the
forwarding unit), not the EX/MEM instruction's own registerWrite. -/
def amendedForwardA (p : Processor) : Nat :=
  if p.idEx.instruction.rs1 ≠ 0 ∧ (p.exMem.valid = true ∧ p.idEx.control.regWrite = true ∧
      p.exMem.instruction.rd ≠ 0 ∧ p.exMem.instruction.rd = p.idEx.instruction.rs1) then
    p.exMem.aluResult.result
  else if p.idEx.instruction.rs1 ≠ 0 ∧ (p.memWb.valid = true ∧ p.memWb.control.regWrite = true ∧
      p.memWb.instruction.rd ≠ 0 ∧ p.memWb.instruction.rd = p.idEx.instruction.rs1) then
    memWbValue p.memWb
  else p.idEx.readData1

/-- Amended selector for ALU operand B (used when aluSrc is off), with the
same correction on the EX/MEM condition. -/
def amendedForwardB (p : Processor) : Nat :=
  if p.idEx.instruction.rs2 ≠ 0 ∧ (p.exMem.valid = true ∧ p.idEx.control.regWrite = true ∧
      p.exMem.instruction.rd ≠ 0 ∧ p.exMem.instruction.rd = p.idEx.instruction.rs2) then
    p.exMem.aluResult.result
  else if p.idEx.instruction.rs2 ≠ 0 ∧ (p.memWb.valid = true ∧ p.memWb.control.regWrite = true ∧
      p.memWb.instruction.rd ≠ 0 ∧ p.memWb.instruction.rd = p.idEx.instruction.rs2) then
    memWbValue p.memWb
  else p.idEx.readData2

theorem exMemClobbered_valid (p : Processor) : (exMemClobbered p).valid = p.exMem.valid := rfl

theorem exMemClobbered_control (p : Processor) : (exMemClobbered p).control = p.idEx.control := rfl

theorem exMemClobbered_instruction (p : Processor) :
    (exMemClobbered p).instruction = p.exMem.instruction := rfl

/-- A store (sw x2,0(x1), registerWrite off) entering Execute while EX/MEM
holds an add with destination x1 = its base register and ALU result 42. -/
def c5SwInstruction : Instruction :=
  { raw := 0x0020A023, opcode := .SW, format := .S_TYPE, rs1 := 1, rs2 := 2, rd := -1,
    immediate := 0 }

/-- The producer add x1,x2,x3 snapshot held in EX/MEM of c5State. -/
def c5AddInstruction : Instruction :=
  { raw := 0x003100B3, opcode := .ADD, format := .R_TYPE, rs1 := 2, rs2 := 3, rd := 1,
    immediate := 0 }

/-- Pipeline-register configuration refuting the claimed selection rule. -/
def c5State : Processor :=
  { initProcessor [] with
    idEx := { pc := 8, instruction := c5SwInstruction, readData1 := 0, readData2 := 0,
              immediate := 0, control := setControlSignals c5SwInstruction, valid := true },
    exMem := { pc := 4, branchTarget := 0, instruction := c5AddInstruction,
               aluResult := { result := 42 }, readData2 := 0,
               control := { regWrite := true, aluOp := 2 }, branchTaken := false,
               valid := true } }

/-- C5 counterexample: in c5State the claim selects the EX/MEM ALU result 42
for operand A (EX/MEM valid, registerWrite set, rd = 1 = rs1), but
executeStage has already overwritten EX/MEM's control with the store's
(registerWrite off), so the forwarding unit falls through to the stale
decode-time value 0. -/
theorem forwardingSelectionClaimFails :
    c5State.idEx.valid = true ∧ aluInputA true c5State = 0 ∧ claimForwardA c5State = 42 ∧
    aluInputA true c5State ≠ claimForwardA c5State := by
  refine ⟨by decide, by decide, by decide, by decide⟩

/-- C5 (amended): with forwarding enabled, for the instruction entering
Execute, each ALU operand is selected independently by the amended rule: the
EX/MEM bypass fires when EX/MEM is valid with a matching non-zero
destination and the entering instruction has registerWrite set; otherwise a
valid MEM/WB producer with registerWrite and matching non-zero destination
supplies its committed value; otherwise the decode-time register value is
used, and register 0 is never a forwarding target. -/
theorem forwardingOperandSelectionAmended (p : Processor) (h : p.idEx.valid = true) :
    aluInputA true p = amendedForwardA p ∧
    (p.idEx.control.aluSrc = false → aluInputB true p = amendedForwardB p) := by
  constructor
  · unfold aluInputA forwardPair detectForwarding amendedForwardA
    rw [if_pos rfl, if_neg (by simp [h])]
    simp only [exMemClobbered_valid, exMemClobbered_control, exMemClobbered_instruction]
    by_cases c1 : p.idEx.instruction.rs1 ≠ 0
    · by_cases cA : p.exMem.valid = true ∧ p.idEx.control.regWrite = true ∧
          p.exMem.instruction.rd ≠ 0 ∧ p.exMem.instruction.rd = p.idEx.instruction.rs1
      · rw [if_pos c1, if_pos cA, if_pos ⟨c1, cA⟩]
      · by_cases cB : p.memWb.valid = true ∧ p.memWb.control.regWrite = true ∧
            p.memWb.instruction.rd ≠ 0 ∧ p.memWb.instruction.rd = p.idEx.instruction.rs1
        · rw [if_pos c1, if_neg cA, if_pos cB, if_neg (fun hx => cA hx.2), if_pos ⟨c1, cB⟩]
        · rw [if_pos c1, if_neg cA, if_neg cB, if_neg (fun hx => cA hx.2),
              if_neg (fun hx => cB hx.2)]
    · rw [if_neg c1, if_neg (fun hx => c1 hx.1), if_neg (fun hx => c1 hx.1)]
  · intro hsrc
    unfold aluInputB forwardPair detectForwarding amendedForwardB
    rw [if_neg (by simp [hsrc]), if_pos rfl, if_neg (by simp [h])]
    simp only [exMemClobbered_valid, exMemClobbered_control, exMemClobbered_instruction]
    by_cases c1 : p.idEx.instruction.rs2 ≠ 0
    · by_cases cA : p.exMem.valid = true ∧ p.idEx.control.regWrite = true ∧
          p.exMem.instruction.rd ≠ 0 ∧ p.exMem.instruction.rd = p.idEx.instruction.rs2
      · rw [if_pos c1, if_pos cA, if_pos ⟨c1, cA⟩]
      · by_cases cB : p.memWb.valid = true ∧ p.memWb.control.regWrite = true ∧
            p.memWb.instruction.rd ≠ 0 ∧ p.memWb.instruction.rd = p.idEx.instruction.rs2
        · rw [if_pos c1, if_neg cA, if_pos cB, if_neg (fun hx => cA hx.2), if_pos ⟨c1, cB⟩]
        · rw [if_pos c1, if_neg cA, if_neg cB, if_neg (fun hx => cA hx.2),
              if_neg (fun hx => cB hx.2)]
    · rw [if_neg c1, if_neg (fun hx => c1 hx.1), if_neg (fun hx => c1 hx.1)]

/-- C5 witness: the amended selection rule applied to the concrete state
c5State. -/
theorem forwardingOperandSelectionAmendedWitness :
    c5State.idEx.valid = true ∧
    (aluInputA true c5State = amendedForwardA c5State ∧
      (c5State.idEx.control.aluSrc = false →
        aluInputB true c5State = amendedForwardB c5State)) :=
  ⟨rfl, forwardingOperandSelectionAmended c5State rfl⟩

end Forwarding
